import Mathlib

/-!
Shallow embedding of `src/wrap.cc` from roboptim-core-python: the Python
C-extension bridging Python callables into the roboptim-core function /
problem / solver hierarchy.

Modelling conventions:
* C++ `double` values are only ever copied by the wrapped operations (no
  arithmetic is performed on them by the bridge), so they are modelled by
  `Rat`, which has decidable, kernel-computable equality.  This keeps
  "bit-identical" round-trip statements provable.
* A `PyObject*` callable bound into a function slot is modelled by its
  observable behaviour: a flag recording whether `PyFunction_Check` holds
  and a pure function from the buffers it receives to the error it raises
  (if any) and the buffer contents it leaves behind.
* `PyErr_SetString` followed by a normal `return` is modelled as the
  `CallStatus.pending` outcome (a Python error is set, control returns
  normally); a thrown C++ exception (`checkPythonError`) is
  `CallStatus.thrown` (control unwinds, skipping the rest of the caller).
* Eigen vectors / numpy buffers are `List Rat`; matrices are
  `List (List Rat)` (row-major, one inner list per row).
-/

/-- C++ `double` as carried by the bridge.  The wrapped operations never do
arithmetic on these values, only copy them, so `Rat` is a faithful carrier
with decidable equality. -/
abbrev double := Rat

/-- A Python error: exception type name and message, as set by
`PyErr_SetString (PyExc_TypeError, msg)` or raised by `checkPythonError`. -/
structure PyErr where
  kind : String
  msg : String
deriving DecidableEq, Repr

/-- How a wrapped evaluation terminates:
`normal` — returned with no error;
`pending e` — `PyErr_SetString` was called and control returned normally
(the C++ caller keeps running until someone checks `PyErr_Occurred`);
`thrown e` — `checkPythonError` threw a C++ `std::runtime_error`, so control
unwinds out of the enclosing calls. -/
inductive CallStatus where
  | normal : CallStatus
  | pending : PyErr → CallStatus
  | thrown : PyErr → CallStatus
deriving DecidableEq, Repr

/-- Outcome of an `impl_*` evaluation: termination status plus the final
contents of the output buffer the callee was writing into. -/
structure ImplOut where
  status : CallStatus
  buffer : List double
deriving DecidableEq, Repr

/-- `checkPythonError` (wrap.cc 51-83): a raised Python error with message
`e` becomes a C++ `std::runtime_error` whose message is
`"Error occurred in Python code: " ++ e ++ "\n"` followed by the Python
stack trace.  The trace depends on interpreter frame state and is modelled
as empty. -/
def pythonErrorMessage (e : String) : String :=
  "Error occurred in Python code: " ++ e ++ "\n"

/-- A foreign compute callable: `run result x` returns the error it raises
(if any) and the contents it leaves in the result buffer.  `isFunction`
records `PyFunction_Check` (binding only checks `PyCallable_Check`, a
strictly weaker test). -/
structure PyComputeCb where
  isFunction : Bool
  run : List double → List double → Option String × List double

/-- A foreign gradient callable: `run grad x functionId`. -/
structure PyGradientCb where
  isFunction : Bool
  run : List double → List double → Int → Option String × List double

/-- A foreign Jacobian callable: `run jac x` over the whole row-major
Jacobian buffer. -/
structure PyJacobianCb where
  isFunction : Bool
  run : List (List double) → List double → Option String × List (List double)

/-- Capability level of a wrapped function object, standing in for the C++
dynamic type used by the `dynamic_cast<DifferentiableFunction*>` checks. -/
inductive FuncLevel where
  | plain : FuncLevel
  | differentiable : FuncLevel
  | twiceDifferentiable : FuncLevel
deriving DecidableEq, Repr

/-- State of a `roboptim::core::python::Function` (and subclasses): fixed
sizes and name, plus the optional bound callables
(`computeCallback_`, `gradientCallback_`, `jacobianCallback_`). -/
structure PyFunctionObj where
  inputSize : Nat
  outputSize : Nat
  name : String
  level : FuncLevel
  computeCallback : Option PyComputeCb
  gradientCallback : Option PyGradientCb
  jacobianCallback : Option PyJacobianCb

/-- `Function::impl_compute` (wrap.cc 103-156): unbound or non-function
callback sets a Python `TypeError` and returns with the buffer untouched;
otherwise the callable runs on zero-copy views of `result` and `argument`,
and `checkPythonError` turns a raised Python error into a thrown C++
`runtime_error`. -/
def implCompute (f : PyFunctionObj) (result : List double) (argument : List double) : ImplOut :=
  match f.computeCallback with
  | none => ⟨CallStatus.pending ⟨"TypeError", "compute callback not set"⟩, result⟩
  | some cb =>
    if cb.isFunction then
      match cb.run result argument with
      | (some e, buf) => ⟨CallStatus.thrown ⟨"RuntimeError", pythonErrorMessage e⟩, buf⟩
      | (none, buf) => ⟨CallStatus.normal, buf⟩
    else ⟨CallStatus.pending ⟨"TypeError", "compute callback is not a function"⟩, result⟩

/-- `DifferentiableFunction::impl_gradient` (wrap.cc 223-279): same shape as
`implCompute`, with the output-row index passed to the callable. -/
def implGradient (f : PyFunctionObj) (grad : List double) (argument : List double)
    (functionId : Int) : ImplOut :=
  match f.gradientCallback with
  | none => ⟨CallStatus.pending ⟨"TypeError", "gradient callback not set"⟩, grad⟩
  | some cb =>
    if cb.isFunction then
      match cb.run grad argument functionId with
      | (some e, buf) => ⟨CallStatus.thrown ⟨"RuntimeError", pythonErrorMessage e⟩, buf⟩
      | (none, buf) => ⟨CallStatus.normal, buf⟩
    else ⟨CallStatus.pending ⟨"TypeError", "gradient callback is not a function"⟩, grad⟩

/-- Modelled from the spec: the external `roboptim::DifferentiableFunction::gradient`
wrapper (roboptim-core, not under src/) allocates a fresh zero gradient
vector of length `inputSize` and calls the virtual `impl_gradient` on it. -/
def gradientEval (f : PyFunctionObj) (x : List double) (functionId : Int) : ImplOut :=
  implGradient f (List.replicate f.inputSize 0) x functionId

/-- Status left after one loop iteration followed by the rest of the loop:
a later `PyErr_SetString` overwrites an earlier pending error; a normal
remainder preserves the earlier status. -/
def combineStatus (st rest : CallStatus) : CallStatus :=
  match rest with
  | CallStatus.normal => st
  | other => other

/-- Modelled from the spec: the external parent-class default
`roboptim::DifferentiableFunction::impl_jacobian` (roboptim-core, not under
src/) fills the Jacobian row by row, `jacobian.row(i) = gradient(x, i)` for
each output index `i`; a thrown error unwinds out of the loop. -/
def parentImplJacobian (f : PyFunctionObj) (x : List double) :
    List Nat → List (List double) → CallStatus × List (List double)
  | [], buf => (CallStatus.normal, buf)
  | i :: rest, buf =>
    let g := gradientEval f x (Int.ofNat i)
    match g.status with
    | CallStatus.thrown e => (CallStatus.thrown e, buf)
    | st =>
      let r := parentImplJacobian f x rest (buf.set i g.buffer)
      (combineStatus st r.1, r.2)

/-- `DifferentiableFunction::impl_jacobian` (wrap.cc 281-344): with no
Jacobian callback bound it falls back on the parent implementation;
otherwise the foreign Jacobian callable runs on a zero-copy view of the
whole matrix. -/
def implJacobian (f : PyFunctionObj) (jac : List (List double)) (x : List double) :
    CallStatus × List (List double) :=
  match f.jacobianCallback with
  | none => parentImplJacobian f x (List.range f.outputSize) jac
  | some cb =>
    if cb.isFunction then
      match cb.run jac x with
      | (some e, buf) => (CallStatus.thrown ⟨"RuntimeError", pythonErrorMessage e⟩, buf)
      | (none, buf) => (CallStatus.normal, buf)
    else (CallStatus.pending ⟨"TypeError", "jacobian callback is not a function"⟩, jac)

/-- Modelled from the spec: the external `roboptim::Function::operator()`
(roboptim-core, not under src/) allocates a zero-initialized result vector
of length `outputSize` and calls the virtual `impl_compute` on it.  The
spec's §4.2 failure policy ("rather than being converted into a zero
result") presupposes exactly this zero-filled fresh result. -/
def functionCall (f : PyFunctionObj) (x : List double) : ImplOut :=
  implCompute f (List.replicate f.outputSize 0) x

/-- Modelled from the spec: the external `roboptim::DifferentiableFunction::jacobian`
wrapper (roboptim-core, not under src/) allocates a zero
`outputSize × inputSize` matrix and calls the virtual `impl_jacobian`. -/
def jacobianEval (f : PyFunctionObj) (x : List double) : CallStatus × List (List double) :=
  implJacobian f (List.replicate f.outputSize (List.replicate f.inputSize 0)) x

/-- Module-level `compute` (wrap.cc 1206-1255): evaluates
`resultEigen = (*function)(xEigen)` — writing the internal result into the
caller's buffer — and only afterwards tests `PyErr_Occurred`.  A thrown C++
error unwinds before the assignment, leaving the caller's buffer intact; a
pending Python error does not. -/
def computeWrap (f : PyFunctionObj) (resultBuf : List double) (x : List double) :
    Option PyErr × List double :=
  let out := functionCall f x
  match out.status with
  | CallStatus.thrown e => (some e, resultBuf)
  | CallStatus.pending e => (some e, out.buffer)
  | CallStatus.normal => (none, out.buffer)

/-- Module-level `gradient` (wrap.cc 1257-1317): rejects non-differentiable
functions, then `gradientEigen = dfunction->gradient (xEigen, functionId)`
followed by the `PyErr_Occurred` test, with the same
thrown-versus-pending split as `computeWrap`. -/
def gradientWrap (f : PyFunctionObj) (gradBuf : List double) (x : List double)
    (functionId : Int) : Option PyErr × List double :=
  if f.level = FuncLevel.plain then
    (some ⟨"TypeError", "argument 1 should be a differentiable function object"⟩, gradBuf)
  else
    let out := gradientEval f x functionId
    match out.status with
    | CallStatus.thrown e => (some e, gradBuf)
    | CallStatus.pending e => (some e, out.buffer)
    | CallStatus.normal => (none, out.buffer)

/-- Module-level `jacobian` (wrap.cc 1320-1381): rejects non-differentiable
functions, then `jacobianEigen = dfunction->jacobian (xEigen)` followed by
the `PyErr_Occurred` test. -/
def jacobianWrap (f : PyFunctionObj) (jacBuf : List (List double)) (x : List double) :
    Option PyErr × List (List double) :=
  if f.level = FuncLevel.plain then
    (some ⟨"TypeError", "argument 1 should be a differentiable function object"⟩, jacBuf)
  else
    let out := jacobianEval f x
    match out.1 with
    | CallStatus.thrown e => (some e, jacBuf)
    | CallStatus.pending e => (some e, out.2)
    | CallStatus.normal => (none, out.2)

/-! ### Callback binding lifecycle (reference counts)

`bindCompute` / `bindGradient` / `bindJacobian` manage the lifetime of the
bound `PyObject*` with `Py_DECREF` / `Py_XINCREF`.  We model the handles as
object ids with an explicit reference-count heap. -/

/-- Foreign heap: per-object reference count, and whether the object has
been deallocated (a `Py_DECREF` dropping the count to zero frees it). -/
@[ext]
structure Heap where
  count : Nat → Nat
  destroyed : Nat → Bool

/-- `Py_DECREF`: decrement; reaching zero deallocates the object. -/
def decrefH (h : Heap) (o : Nat) : Heap :=
  if h.count o ≤ 1 then
    { count := fun x => if x = o then 0 else h.count x,
      destroyed := fun x => if x = o then true else h.destroyed x }
  else
    { h with count := fun x => if x = o then h.count o - 1 else h.count x }

/-- `Py_XINCREF` on a non-null object: increment its count. -/
def xincrefH (h : Heap) (o : Nat) : Heap :=
  { h with count := fun x => if x = o then h.count o + 1 else h.count x }

/-- The three callback slots of a wrapped function, as foreign handles. -/
@[ext]
structure BindState where
  computeCallback : Option Nat
  gradientCallback : Option Nat
  jacobianCallback : Option Nat
deriving DecidableEq

/-- `Function::setComputeCallback` (wrap.cc 158-171): an early return when
the same callback is already bound, otherwise release the old handle and
acquire the new one. -/
def setComputeCallbackS (st : BindState) (h : Heap) (cb : Nat) : BindState × Heap :=
  if st.computeCallback = some cb then (st, h)
  else
    let h1 := match st.computeCallback with
      | some old => decrefH h old
      | none => h
    ({ st with computeCallback := some cb }, xincrefH h1 cb)

/-- `DifferentiableFunction::setGradientCallback` (wrap.cc 357-367): always
releases the old handle and acquires the new one — there is no same-callback
early return here. -/
def setGradientCallbackS (st : BindState) (h : Heap) (cb : Nat) : BindState × Heap :=
  let h1 := match st.gradientCallback with
    | some old => decrefH h old
    | none => h
  ({ st with gradientCallback := some cb }, xincrefH h1 cb)

/-- `DifferentiableFunction::setJacobianCallback` (wrap.cc 369-379): same
shape as `setGradientCallbackS`. -/
def setJacobianCallbackS (st : BindState) (h : Heap) (cb : Nat) : BindState × Heap :=
  let h1 := match st.jacobianCallback with
    | some old => decrefH h old
    | none => h
  ({ st with jacobianCallback := some cb }, xincrefH h1 cb)

/-! ### Python values crossing the boundary -/

/-- The shapes of Python objects the parameter-map and bounds code
distinguishes (`PyBytes_Check`, `PyUnicode_Check`, `PyLong_Check`,
`PyFloat_Check`, `PyBool_Check`, `PyArray_Check`, `PyTuple_Check`).  A
Python `bool` is also an `int` for `PyLong_Check`, which the conversion
order below reflects. -/
inductive PyVal where
  | bytes : String → PyVal
  | unicode : String → PyVal
  | float : double → PyVal
  | int : Int → PyVal
  | bool : Bool → PyVal
  | npvec : List double → PyVal
  | tuple : List PyVal → PyVal
  | pynone : PyVal
  | other : PyVal

/-! ### Problem model -/

/-- One registered constraint: the (shared) constraint function, its bound
intervals and its scales. -/
structure ConstraintEntry where
  func : PyFunctionObj
  bounds : List (double × double)
  scales : List double

/-- `roboptim::Problem` state as manipulated by the wrapper: input size of
the cost function, optional starting point, per-variable bounds and scales,
and the constraint list. -/
structure ProblemT where
  inputSize : Nat
  startingPoint : Option (List double)
  argumentBounds : List (double × double)
  argumentScales : List double
  constraints : List ConstraintEntry

/-- Elementwise write loop `for i in ids: l[i] := g i`, as used by
`setArgumentBounds` / `setArgumentScales` (and the parent Jacobian loop). -/
def writeLoop {α : Type} (g : Nat → α) : List Nat → List α → List α
  | [], l => l
  | i :: rest, l => writeLoop g rest (l.set i (g i))

/-- `getStartingPoint` (wrap.cc 1509-1537): `Py_None` when unset, otherwise
a copy of the stored vector. -/
def getStartingPointWrap (p : ProblemT) : Option (List double) :=
  p.startingPoint

/-- `setStartingPoint` (wrap.cc 1539-1576): rejects a vector whose length
differs from the input size, otherwise stores it. -/
def setStartingPointWrap (p : ProblemT) (v : List double) : Option PyErr × ProblemT :=
  if v.length = p.inputSize then (none, { p with startingPoint := some v })
  else (some ⟨"TypeError", "invalid size"⟩, p)

/-- `getArgumentBounds` (wrap.cc 1578-1607): builds an `(inputSize, 2)`
array reading `argumentBounds()[i].first/.second` for each `i`.  A row of
the numpy array is modelled as a `(lower, upper)` pair. -/
def getArgumentBoundsWrap (p : ProblemT) : List (double × double) :=
  (List.range p.inputSize).map (fun i => p.argumentBounds.getD i (0, 0))

/-- `setArgumentBounds` (wrap.cc 1609-1658): rejects a first dimension
different from the input size (the second dimension, checked to be 2 in the
source, is intrinsic to the pair representation), then overwrites
`argumentBounds()[i]` elementwise. -/
def setArgumentBoundsWrap (p : ProblemT) (rows : List (double × double)) :
    Option PyErr × ProblemT :=
  if rows.length = p.inputSize then
    let newBounds := writeLoop (fun i => rows.getD i (0, 0))
      (List.range p.inputSize) p.argumentBounds
    (none, { p with argumentBounds := newBounds })
  else (some ⟨"TypeError", "invalid size"⟩, p)

/-- `getArgumentScales` (wrap.cc 1660-1683): reads `argumentScales()[i]`
for each `i` below the input size. -/
def getArgumentScalesWrap (p : ProblemT) : List double :=
  (List.range p.inputSize).map (fun i => p.argumentScales.getD i 0)

/-- `setArgumentScales` (wrap.cc 1685-1724): rejects a length different
from the input size, then overwrites `argumentScales()[i]` elementwise. -/
def setArgumentScalesWrap (p : ProblemT) (scales : List double) :
    Option PyErr × ProblemT :=
  if scales.length = p.inputSize then
    let newScales := writeLoop (fun i => scales.getD i 0)
      (List.range p.inputSize) p.argumentScales
    (none, { p with argumentScales := newScales })
  else (some ⟨"TypeError", "invalid size"⟩, p)

/-- The third argument of `addConstraint`: a Python list (possible
`(min, max)` pair), a numpy array of the given dimensions (entry `i j` of a
2-D array is `entry i j`), or any other object. -/
inductive BoundsArg where
  | pyList : List PyVal → BoundsArg
  | npArray : List Nat → (Nat → Nat → double) → BoundsArg
  | otherObj : BoundsArg

/-- `addConstraint` (wrap.cc 1727-1833).  After the differentiable-function
check: `is_pair` means a Python list of size 2, `is_np_array` a 2-D numpy
array; a pair is accepted only for a scalar constraint and must hold two
floats; an array is accepted only with shape `(outputSize, 2)`, with unit
scales; every other combination is rejected with a `TypeError` before the
problem is touched. -/
def addConstraintWrap (p : ProblemT) (f : PyFunctionObj) (arg : BoundsArg) :
    Option PyErr × ProblemT :=
  if f.level = FuncLevel.plain then
    (some ⟨"TypeError", "2nd argument must be a differentiable function"⟩, p)
  else
    match arg with
    | BoundsArg.pyList elems =>
      if elems.length = 2 then
        if f.outputSize = 1 then
          match elems with
          | [PyVal.float lo, PyVal.float hi] =>
            (none, { p with constraints := p.constraints ++ [⟨f, [(lo, hi)], [1]⟩] })
          | _ => (some ⟨"TypeError", "bounds should be floats."⟩, p)
        else
          (some ⟨"TypeError",
            "3rd argument's size must match the constraint's output size."⟩, p)
      else
        (some ⟨"TypeError",
          "3rd argument must be a (n x 2) NumPy array or a list of size 2."⟩, p)
    | BoundsArg.npArray dims entry =>
      if dims.length = 2 then
        if dims.getD 0 0 = f.outputSize ∧ dims.getD 1 0 = 2 then
          (none, { p with constraints := p.constraints ++
            [⟨f, (List.range f.outputSize).map (fun i => (entry i 0, entry i 1)),
              List.replicate f.outputSize 1⟩] })
        else
          (some ⟨"TypeError",
            "3rd argument's size must match the constraint's output size."⟩, p)
      else
        (some ⟨"TypeError",
          "3rd argument must be a (n x 2) NumPy array or a list of size 2."⟩, p)
    | BoundsArg.otherObj =>
      (some ⟨"TypeError",
        "3rd argument must be a (n x 2) NumPy array or a list of size 2."⟩, p)

/-! ### Solver factory, minimum, results -/

/-- A clean optimum (`roboptim::Result`). -/
structure ResultT where
  inputSize : Int
  outputSize : Int
  x : List double
  value : List double
  constraints : List double
  lambda : List double
deriving DecidableEq, Repr

/-- `roboptim::ResultWithWarnings`: a `ResultT` plus warning texts. -/
structure ResultWithWarningsT extends ResultT where
  warnings : List String
deriving DecidableEq, Repr

/-- `roboptim::SolverError`: message plus optional last known state. -/
structure SolverErrorT where
  message : String
  lastState : Option ResultT
deriving DecidableEq, Repr

/-- The capsule tags (`ROBOPTIM_CORE_*_CAPSULE_NAME` in wrap.hh): one
distinct tag per exported result type. -/
inductive CapsuleTag where
  | result : CapsuleTag
  | resultWithWarnings : CapsuleTag
  | solverError : CapsuleTag
deriving DecidableEq, Repr

/-- A capsule passed to the result-introspection functions: the tag it was
created with, together with the wrapped native object. -/
inductive ResultCapsule where
  | result : ResultT → ResultCapsule
  | warnings : ResultWithWarningsT → ResultCapsule
  | solverErr : SolverErrorT → ResultCapsule
deriving DecidableEq, Repr

/-- The outcome variant held by the solver (`solver_t::result_t`): the four
`which()` discriminator values of §3's tagged union. -/
inductive SolverResultVariant where
  | noSolution : SolverResultVariant
  | value : ResultT → SolverResultVariant
  | valueWarnings : ResultWithWarningsT → SolverResultVariant
  | solverError : SolverErrorT → SolverResultVariant
deriving DecidableEq, Repr

/-- Module-level `minimum` (wrap.cc 1849-1899): dispatch on `which()`.
`SOLVER_NO_SOLUTION` sets a `TypeError` "problem not yet solved" and
returns 0 (raises); the other three return a `(tag, capsule)` pair. -/
def minimumWrap : SolverResultVariant → Except PyErr (CapsuleTag × ResultCapsule)
  | SolverResultVariant.noSolution =>
      Except.error ⟨"TypeError", "problem not yet solved"⟩
  | SolverResultVariant.value r =>
      Except.ok (CapsuleTag.result, ResultCapsule.result r)
  | SolverResultVariant.valueWarnings w =>
      Except.ok (CapsuleTag.resultWithWarnings, ResultCapsule.warnings w)
  | SolverResultVariant.solverError e =>
      Except.ok (CapsuleTag.solverError, ResultCapsule.solverErr e)

/-- Boolean success test for an `Except` outcome. -/
def exceptIsOk {ε α : Type} : Except ε α → Bool
  | Except.ok _ => true
  | Except.error _ => false

/-- Modelled from the spec: "no-solution (illegal prior to solving)" — the
external solver's `minimum()` before any `solve()` call yields the
no-solution variant of the tagged union (roboptim-core, not under src/). -/
def unsolvedMinimum : SolverResultVariant :=
  SolverResultVariant.noSolution

/-- Modelled from the spec: the external plugin registry — `createSolver`
"instantiates a solver backend looked up by name against a shared
library/plugin registry (treated as an external collaborator)".
`loadable` says whether the named backend can be found and loaded. -/
structure PluginRegistry where
  loadable : String → Bool

/-- A constructed solver factory (`factory_t`): plugin name and problem. -/
structure FactoryT where
  pluginName : String
  problem : ProblemT

/-- Modelled from the spec: the external `factory_t` constructor throws
when the plugin cannot be found or loaded. -/
def factoryNew (reg : PluginRegistry) (name : String) (p : ProblemT) :
    Except String FactoryT :=
  if reg.loadable name then Except.ok ⟨name, p⟩
  else Except.error ("failed to load solver plugin: " ++ name)

/-- Module-level `createSolver` (wrap.cc 1118-1145): the factory
constructor runs under `try`/`catch (...)`; any failure is swallowed and
`Py_None` (here `none`) is returned instead of propagating the error. -/
def createSolverWrap (reg : PluginRegistry) (name : String) (p : ProblemT) :
    Option FactoryT :=
  match factoryNew reg name p with
  | Except.ok fac => some fac
  | Except.error _ => none

/-! ### Parameter maps -/

/-- The value variant of a solver `Parameter`
(`boost::variant<double, int, std::string>`). -/
inductive ParamValue where
  | float : double → ParamValue
  | int : Int → ParamValue
  | str : String → ParamValue
deriving DecidableEq, Repr

/-- The value variant of a `SolverState` parameter
(`boost::variant<double, int, std::string, bool, vector>`). -/
inductive StateParamValue where
  | float : double → StateParamValue
  | int : Int → StateParamValue
  | str : String → StateParamValue
  | bool : Bool → StateParamValue
  | vec : List double → StateParamValue
deriving DecidableEq, Repr

/-- Key extraction used for dictionary keys and descriptions: a bytes or
unicode string converts; every other object makes the loop `continue`. -/
def paramKeyOf : PyVal → Option String
  | PyVal.bytes s => some s
  | PyVal.unicode s => some s
  | _ => none

/-- `detail::toParameterValue` (wrap.cc 868-901): bytes / unicode / int /
float convert (a Python `bool` passes the `PyLong_Check` test and converts
as 0 or 1); anything else sets a `TypeError` and returns 0, which the
variant stores as `int 0`. -/
def toParameterValue : PyVal → Option String × ParamValue
  | PyVal.bytes s => (none, ParamValue.str s)
  | PyVal.unicode s => (none, ParamValue.str s)
  | PyVal.bool b => (none, ParamValue.int (if b then 1 else 0))
  | PyVal.int n => (none, ParamValue.int n)
  | PyVal.float v => (none, ParamValue.float v)
  | _ => (some "invalid parameter value (should be double, int or string).",
          ParamValue.int 0)

/-- `detail::toStateParameterValue` (wrap.cc 935-965): bool and numpy
vector first (the source maps the numpy data with `PyArray_ITEMSIZE` as the
element count — a memory-layout detail outside this embedding; the vector's
values are carried as given), then the scalar cases of `toParameterValue`;
anything else sets a `TypeError` and returns 0. -/
def toStateParameterValue : PyVal → Option String × StateParamValue
  | PyVal.bool b => (none, StateParamValue.bool b)
  | PyVal.npvec v => (none, StateParamValue.vec v)
  | PyVal.bytes s => (none, StateParamValue.str s)
  | PyVal.unicode s => (none, StateParamValue.str s)
  | PyVal.int n => (none, StateParamValue.int n)
  | PyVal.float v => (none, StateParamValue.float v)
  | _ => (some "invalid parameter value (should be double, int, string,bool or NumPy vector).",
          StateParamValue.int 0)

/-- `std::map::operator[]` insertion (insert or overwrite) on a map
modelled as a lookup function. -/
def mapSet {β : Type} (m : String → Option β) (k : String) (v : β) :
    String → Option β :=
  fun k2 => if k2 = k then some v else m k2

/-- Validation of one dictionary value: it must be a 2-tuple whose first
component is a bytes or unicode string (the description); otherwise the
loop skips the entry (`continue`). -/
def entryPayload : PyVal → Option (String × PyVal)
  | PyVal.tuple [d, pv] =>
    (match paramKeyOf d with
     | some desc => some (desc, pv)
     | none => none)
  | _ => none

/-- The dictionary iteration shared by `setSolverParameters` (wrap.cc
1941-2014) and `setSolverStateParameters` (wrap.cc 2213-2284): for each
entry, a non-string key, a value that is not a 2-tuple, or a non-string
description makes the loop `continue`; otherwise
`parameters[key] = (description, converted value)`. -/
def processParamDict {α : Type} (conv : PyVal → Option String × α)
    (acc : String → Option (String × α)) :
    List (PyVal × PyVal) → (String → Option (String × α))
  | [] => acc
  | (k, v) :: rest =>
    match paramKeyOf k with
    | none => processParamDict conv acc rest
    | some key =>
      match entryPayload v with
      | none => processParamDict conv acc rest
      | some (desc, pv) =>
          processParamDict conv (mapSet acc key (desc, (conv pv).2)) rest

/-- The string keys a parameter dictionary will actually insert under. -/
def dictStringKeys (dict : List (PyVal × PyVal)) : List String :=
  dict.filterMap (fun e => paramKeyOf e.1)

/-- `setSolverParameters` (wrap.cc 1941-2014): `parameters.clear ()` then
the dictionary iteration — the previous map contents are discarded. -/
def setSolverParametersWrap (_params : String → Option (String × ParamValue))
    (dict : List (PyVal × PyVal)) : String → Option (String × ParamValue) :=
  processParamDict toParameterValue (fun _ => none) dict

/-- `setSolverStateParameters` (wrap.cc 2213-2284): `parameters.clear ()`
then the dictionary iteration, with the state-parameter value variant. -/
def setSolverStateParametersWrap (_params : String → Option (String × StateParamValue))
    (dict : List (PyVal × PyVal)) : String → Option (String × StateParamValue) :=
  processParamDict toStateParameterValue (fun _ => none) dict

/-! ### Result introspection -/

/-- Values appearing in the dictionaries built by the result converters. -/
inductive DictVal where
  | int : Int → DictVal
  | npvec : List double → DictVal
  | str : String → DictVal
  | strlist : List String → DictVal
deriving DecidableEq, Repr

/-- `detail::resultConverter` (wrap.cc 774-810): accepts a capsule tagged
`Result`, and also one tagged `ResultWithWarnings`, which it up-casts to
the base `Result`; anything else is a `TypeError`. -/
def resultConverter : ResultCapsule → Except PyErr ResultT
  | ResultCapsule.result r => Except.ok r
  | ResultCapsule.warnings w => Except.ok w.toResultT
  | _ => Except.error ⟨"TypeError", "Result object expected but another type was passed"⟩

/-- `toDict<result_t>` on a native result (wrap.cc 2460-2518): the base
mapping with the six keys. -/
def resultToDictBase (r : ResultT) : List (String × DictVal) :=
  [("inputSize", DictVal.int r.inputSize),
   ("outputSize", DictVal.int r.outputSize),
   ("x", DictVal.npvec r.x),
   ("value", DictVal.npvec r.value),
   ("constraints", DictVal.npvec r.constraints),
   ("lambda", DictVal.npvec r.lambda)]

/-- Module-level `resultToDict` (wrap.cc 2525-2542): unwrap through
`resultConverter`, then build the base mapping. -/
def resultToDictWrap (c : ResultCapsule) : Except PyErr (List (String × DictVal)) :=
  match resultConverter c with
  | Except.ok r => Except.ok (resultToDictBase r)
  | Except.error e => Except.error e

/-! ### Concrete sample objects used by the witnesses below -/

/-- A freshly constructed `Function(1, 1, "f")` with nothing bound. -/
def sampleUnboundFunction : PyFunctionObj :=
  ⟨1, 1, "f", FuncLevel.plain, none, none, none⟩

/-- A gradient callable writing the constant gradient `[42]`. -/
def sampleGradCb : PyGradientCb :=
  ⟨true, fun _g _x _i => (none, [42])⟩

/-- A `DifferentiableFunction(1, 2, "g")` with only a gradient bound. -/
def sampleGradFunction : PyFunctionObj :=
  ⟨1, 2, "g", FuncLevel.differentiable, none, some sampleGradCb, none⟩

/-- A compute callable that raises. -/
def raisingComputeCb : PyComputeCb :=
  ⟨true, fun r _x => (some "boom", r)⟩

/-- A gradient callable that raises. -/
def raisingGradientCb : PyGradientCb :=
  ⟨true, fun g _x _i => (some "boom", g)⟩

/-- A Jacobian callable that raises. -/
def raisingJacobianCb : PyJacobianCb :=
  ⟨true, fun j _x => (some "boom", j)⟩

/-- A `DifferentiableFunction(1, 1, "r")` whose callables all raise. -/
def raisingFunction : PyFunctionObj :=
  ⟨1, 1, "r", FuncLevel.differentiable,
   some raisingComputeCb, some raisingGradientCb, some raisingJacobianCb⟩

/-- A problem over two variables with default bounds / scales. -/
def sampleProblem : ProblemT :=
  ⟨2, none, [(0, 0), (0, 0)], [1, 1], []⟩

/-- A differentiable constraint function with output size 2. -/
def sampleDiffFunction : PyFunctionObj :=
  ⟨2, 2, "c", FuncLevel.differentiable, none, none, none⟩

/-- A plugin registry in which no backend resolves. -/
def noPluginRegistry : PluginRegistry :=
  ⟨fun _ => false⟩

/-- Binding state with handle 5 bound in all three slots. -/
def bindStateSample : BindState :=
  ⟨some 5, some 5, some 5⟩

/-- Heap where handle 5 is held by its slot and one caller reference. -/
def heapSample : Heap :=
  ⟨fun x => if x = 5 then 2 else 1, fun _ => false⟩

/-- A one-entry parameter dictionary under string key "a". -/
def paramDictSample : List (PyVal × PyVal) :=
  [(PyVal.unicode "a", PyVal.tuple [PyVal.unicode "d", PyVal.float 1])]

/-- A pre-existing solver parameter map with an entry under "zz". -/
def oldParamsSample : String → Option (String × ParamValue) :=
  mapSet (fun _ => none) "zz" ("old", ParamValue.int 7)

/-- A pre-existing solver-state parameter map with an entry under "zz". -/
def oldStateParamsSample : String → Option (String × StateParamValue) :=
  mapSet (fun _ => none) "zz" ("old", StateParamValue.bool true)

/-! ### Helper lemmas -/

theorem writeLoop_length {α : Type} (g : Nat → α) (ids : List Nat) (l : List α) :
    (writeLoop g ids l).length = l.length := by
  induction ids generalizing l with
  | nil => rfl
  | cons i rest ih => simp [writeLoop, ih]

theorem writeLoop_getElem? {α : Type} (g : Nat → α) (ids : List Nat) (l : List α) (j : Nat) :
    (writeLoop g ids l)[j]? = if j ∈ ids ∧ j < l.length then some (g j) else l[j]? := by
  induction ids generalizing l with
  | nil => simp [writeLoop]
  | cons i rest ih =>
    simp only [writeLoop]
    rw [ih]
    by_cases hj : j ∈ rest
    · by_cases hl : j < l.length
      · simp [hj, hl]
      · have hnone : l[j]? = none := List.getElem?_eq_none (by omega)
        have hnone2 : (l.set i (g i))[j]? = none :=
          List.getElem?_eq_none (by simp; omega)
        simp [hj, hl, hnone, hnone2]
    · by_cases hij : i = j
      · subst hij
        by_cases hl : i < l.length
        · simp [hj, hl, List.getElem?_set, List.mem_cons]
        · have hnone : l[i]? = none := List.getElem?_eq_none (by omega)
          simp [hj, hl, List.getElem?_set, hnone]
      · have hset : (l.set i (g i))[j]? = l[j]? := by
          simp [List.getElem?_set, hij]
        have hji : ¬ j = i := fun h => hij h.symm
        simp only [List.length_set, hj, false_and, if_false, hset]
        have hmem : ¬ j ∈ i :: rest := by
          simp [List.mem_cons, hj, hji]
        simp [hmem]

theorem map_getD_range {α : Type} (l : List α) (d : α) :
    (List.range l.length).map (fun i => l.getD i d) = l := by
  induction l with
  | nil => rfl
  | cons a t ih =>
    rw [List.length_cons, List.range_succ_eq_map t.length]
    simp only [List.map_cons, List.map_map]
    have hhead : (a :: t).getD 0 d = a := rfl
    have htail : (List.range t.length).map ((fun i => (a :: t).getD i d) ∘ Nat.succ)
        = (List.range t.length).map (fun i => t.getD i d) := by
      apply List.map_congr_left
      intro b _
      rfl
    rw [hhead, htail, ih]

theorem getD_of_getElem?_some {α : Type} {l : List α} {i : Nat} {a d : α}
    (h : l[i]? = some a) : l.getD i d = a := by
  simp [List.getD_eq_getElem?_getD, h]

/-- After the elementwise overwrite loop over all indices, reading the
indices back yields exactly the source rows. -/
theorem writeLoop_range_readback {α : Type} (l src : List α) (d : α) (n : Nat)
    (hl : l.length = n) (hs : src.length = n) :
    (List.range n).map
      (fun i => (writeLoop (fun i => src.getD i d) (List.range n) l).getD i d) = src := by
  have hstep : ∀ i ∈ List.range n,
      (writeLoop (fun i => src.getD i d) (List.range n) l).getD i d = src.getD i d := by
    intro i hi
    have hi' : i < n := List.mem_range.mp hi
    have : (writeLoop (fun i => src.getD i d) (List.range n) l)[i]? = some (src.getD i d) := by
      rw [writeLoop_getElem?]
      simp [List.mem_range, hi', hl]
    exact getD_of_getElem?_some this
  rw [List.map_congr_left hstep]
  have := map_getD_range src d
  rw [hs] at this
  exact this

/-- A gradient evaluation with a bound, well-typed, non-raising callable
terminates normally with the row the callable produced. -/
theorem gradientEval_normal (f : PyFunctionObj) (gcb : PyGradientCb)
    (x : List double) (functionId : Int)
    (hg : f.gradientCallback = some gcb) (hfn : gcb.isFunction = true)
    (hnr : (gcb.run (List.replicate f.inputSize 0) x functionId).1 = none) :
    gradientEval f x functionId =
      ⟨CallStatus.normal, (gcb.run (List.replicate f.inputSize 0) x functionId).2⟩ := by
  unfold gradientEval implGradient
  rw [hg]
  simp only [hfn, if_true]
  rcases hr : gcb.run (List.replicate f.inputSize 0) x functionId with ⟨err, b⟩
  rw [hr] at hnr
  simp only at hnr
  subst hnr
  rfl

/-- With a bound, non-raising gradient callable, the parent-class default
Jacobian loop terminates normally and writes each requested row. -/
theorem parentImplJacobian_normal (f : PyFunctionObj) (gcb : PyGradientCb)
    (x : List double)
    (hg : f.gradientCallback = some gcb) (hfn : gcb.isFunction = true)
    (ids : List Nat)
    (hnr : ∀ i ∈ ids, (gcb.run (List.replicate f.inputSize 0) x (Int.ofNat i)).1 = none) :
    ∀ buf, parentImplJacobian f x ids buf =
      (CallStatus.normal,
       writeLoop (fun i => (gcb.run (List.replicate f.inputSize 0) x (Int.ofNat i)).2)
         ids buf) := by
  induction ids with
  | nil => intro buf; rfl
  | cons i rest ih =>
    intro buf
    have hi : (gcb.run (List.replicate f.inputSize 0) x (Int.ofNat i)).1 = none :=
      hnr i (by simp)
    have hrest : ∀ j ∈ rest, (gcb.run (List.replicate f.inputSize 0) x (Int.ofNat j)).1 = none :=
      fun j hj => hnr j (by simp [hj])
    have hge := gradientEval_normal f gcb x (Int.ofNat i) hg hfn hi
    simp only [parentImplJacobian, hge, ih hrest]
    rfl

/-- Skipping semantics of the parameter-dictionary loop: a key that no
entry inserts under is left exactly as in the accumulator map. -/
theorem processParamDict_not_mem {α : Type} (conv : PyVal → Option String × α)
    (dict : List (PyVal × PyVal)) (k : String)
    (hk : k ∉ dictStringKeys dict) :
    ∀ acc, processParamDict conv acc dict k = acc k := by
  induction dict with
  | nil => intro acc; rfl
  | cons e rest ih =>
    intro acc
    obtain ⟨kv, vv⟩ := e
    cases hpk : paramKeyOf kv with
    | none =>
      have hkrest : k ∉ dictStringKeys rest := by
        simpa [dictStringKeys, List.filterMap_cons, hpk] using hk
      simp only [processParamDict, hpk]
      exact ih hkrest acc
    | some key =>
      have hk2 : ¬ (key = k ∨ k ∈ dictStringKeys rest) := by
        intro hor
        apply hk
        simp [dictStringKeys, List.filterMap_cons, hpk]
        rcases hor with h1 | h2
        · exact Or.inl h1.symm
        · exact Or.inr (by simpa [dictStringKeys] using h2)
      have hne : key ≠ k := fun h => hk2 (Or.inl h)
      have hkrest : k ∉ dictStringKeys rest := fun h => hk2 (Or.inr h)
      cases hep : entryPayload vv with
      | none =>
        simp only [processParamDict, hpk, hep]
        exact ih hkrest acc
      | some dp =>
        obtain ⟨desc, pv⟩ := dp
        simp only [processParamDict, hpk, hep]
        rw [ih hkrest]
        have hkne : k ≠ key := fun h => hne h.symm
        simp [mapSet, hkne]

/-! ### Claim theorems -/

/-- C1: for a `DifferentiableFunction` with a (well-typed, non-raising)
gradient callback bound and no Jacobian callback bound, `jacobian(x)`
succeeds via the parent-class row-by-row default, and row `i` of the
returned matrix equals the buffer produced by `gradient(x, i)` for every
`i` in `[0, outputSize)`. -/
theorem default_jacobian_rowwise (f : PyFunctionObj) (gcb : PyGradientCb)
    (x : List double)
    (hg : f.gradientCallback = some gcb) (hj : f.jacobianCallback = none)
    (hfn : gcb.isFunction = true) (_hx : x.length = f.inputSize)
    (hnr : ∀ i, i < f.outputSize →
      (gcb.run (List.replicate f.inputSize 0) x (Int.ofNat i)).1 = none) :
    (jacobianEval f x).1 = CallStatus.normal ∧
    ∀ i, i < f.outputSize →
      (gradientEval f x (Int.ofNat i)).status = CallStatus.normal ∧
      (jacobianEval f x).2[i]? = some ((gradientEval f x (Int.ofNat i)).buffer) := by
  have hnr' : ∀ i ∈ List.range f.outputSize,
      (gcb.run (List.replicate f.inputSize 0) x (Int.ofNat i)).1 = none :=
    fun i hi => hnr i (List.mem_range.mp hi)
  have hparent := parentImplJacobian_normal f gcb x hg hfn (List.range f.outputSize) hnr'
    (List.replicate f.outputSize (List.replicate f.inputSize 0))
  have hjac : jacobianEval f x =
      (CallStatus.normal,
       writeLoop (fun i => (gcb.run (List.replicate f.inputSize 0) x (Int.ofNat i)).2)
         (List.range f.outputSize)
         (List.replicate f.outputSize (List.replicate f.inputSize 0))) := by
    unfold jacobianEval implJacobian
    rw [hj]
    exact hparent
  constructor
  · rw [hjac]
  · intro i hi
    have hge := gradientEval_normal f gcb x (Int.ofNat i) hg hfn (hnr i hi)
    constructor
    · rw [hge]
    · rw [hjac, hge]
      simp only
      rw [writeLoop_getElem?]
      simp [List.mem_range, hi]

/-- C1 witness: a concrete differentiable function with only a gradient
bound; the Jacobian default law instantiated at both output rows. -/
theorem default_jacobian_rowwise_witness :
    (jacobianEval sampleGradFunction [5]).1 = CallStatus.normal ∧
    (jacobianEval sampleGradFunction [5]).2[0]? =
      some ((gradientEval sampleGradFunction [5] (Int.ofNat 0)).buffer) ∧
    (jacobianEval sampleGradFunction [5]).2[1]? =
      some ((gradientEval sampleGradFunction [5] (Int.ofNat 1)).buffer) :=
  have h := default_jacobian_rowwise sampleGradFunction sampleGradCb [5]
    rfl rfl rfl rfl (fun _i _hi => rfl)
  ⟨h.1, (h.2 0 (by decide)).2, (h.2 1 (by decide)).2⟩

/-- C2 counterexample: a `Function(1,1)` with no compute callback bound,
evaluated through the module-level `compute` into the caller buffer
`[42]`: the call does fail with "compute callback not set", but the
caller's buffer is overwritten with the zero-initialized internal result
`[0]`, so "no element of the output buffer is written" is false. -/
theorem compute_unbound_overwrites_buffer_cex :
    computeWrap sampleUnboundFunction [42] [7] =
      (some ⟨"TypeError", "compute callback not set"⟩, [0]) ∧
    ((0 : double) = 42) = False := by
  constructor
  · rfl
  · simp only [eq_iff_iff, iff_false]
    decide

/-- C2 (amended): evaluating a `Function` with no compute callback bound
fails with the "compute callback not set" `TypeError`, and the caller's
output buffer is overwritten with the zero-initialized internal result
vector (`outputSize` zeros) rather than left untouched. -/
theorem compute_unbound_error_zero_buffer (f : PyFunctionObj)
    (buf x : List double) (h : f.computeCallback = none) :
    computeWrap f buf x =
      (some ⟨"TypeError", "compute callback not set"⟩,
       List.replicate f.outputSize 0) := by
  unfold computeWrap functionCall implCompute
  rw [h]

/-- C2 witness: the amended statement at the concrete unbound function. -/
theorem compute_unbound_error_zero_buffer_witness :
    computeWrap sampleUnboundFunction [42] [7] =
      (some ⟨"TypeError", "compute callback not set"⟩,
       List.replicate sampleUnboundFunction.outputSize 0) :=
  compute_unbound_error_zero_buffer sampleUnboundFunction [42] [7] rfl

/-- C3 counterexample: `minimum()` on an unsolved solver does not return
the no-solution tag (or any tag): the wrapper raises a `TypeError`
"problem not yet solved" instead. -/
theorem minimum_before_solve_raises_cex :
    minimumWrap unsolvedMinimum =
      Except.error ⟨"TypeError", "problem not yet solved"⟩ ∧
    exceptIsOk (minimumWrap unsolvedMinimum) = false :=
  ⟨rfl, rfl⟩

/-- C3 (amended): on the no-solution variant (the state before `solve()`),
`minimum()` raises a `TypeError` "problem not yet solved" rather than
returning a tag; on the value variant it returns the value tag with the
result capsule. -/
theorem minimum_tag_dispatch :
    minimumWrap SolverResultVariant.noSolution =
      Except.error ⟨"TypeError", "problem not yet solved"⟩ ∧
    ∀ r : ResultT, minimumWrap (SolverResultVariant.value r) =
      Except.ok (CapsuleTag.result, ResultCapsule.result r) :=
  ⟨rfl, fun _r => rfl⟩

/-- C4: a bounds argument whose row count differs from the constraint's
output size — a 2-D array with a wrong first dimension, or a `(min, max)`
pair for a constraint whose output size is not 1 — is rejected with the
size `TypeError`, and the problem (in particular its constraint list) is
exactly what it was before the call. -/
theorem addConstraint_size_mismatch_rejected (p : ProblemT) (f : PyFunctionObj)
    (hf : f.level ≠ FuncLevel.plain) :
    (∀ (r c : Nat) (entry : Nat → Nat → double), r ≠ f.outputSize →
       addConstraintWrap p f (BoundsArg.npArray [r, c] entry) =
         (some ⟨"TypeError",
           "3rd argument's size must match the constraint's output size."⟩, p)) ∧
    (∀ a b : PyVal, f.outputSize ≠ 1 →
       addConstraintWrap p f (BoundsArg.pyList [a, b]) =
         (some ⟨"TypeError",
           "3rd argument's size must match the constraint's output size."⟩, p)) := by
  constructor
  · intro r c entry hr
    unfold addConstraintWrap
    simp [hf, hr]
  · intro a b hout
    unfold addConstraintWrap
    simp [hf, hout]

/-- C4 witness: a 3-row bounds array and a `(min, max)` pair, both against
a constraint of output size 2, are rejected leaving the problem intact. -/
theorem addConstraint_size_mismatch_rejected_witness :
    addConstraintWrap sampleProblem sampleDiffFunction
        (BoundsArg.npArray [3, 2] (fun _ _ => 0)) =
      (some ⟨"TypeError",
        "3rd argument's size must match the constraint's output size."⟩,
       sampleProblem) ∧
    addConstraintWrap sampleProblem sampleDiffFunction
        (BoundsArg.pyList [PyVal.float 0, PyVal.float 10]) =
      (some ⟨"TypeError",
        "3rd argument's size must match the constraint's output size."⟩,
       sampleProblem) :=
  have h := addConstraint_size_mismatch_rejected sampleProblem sampleDiffFunction
    (by decide)
  ⟨h.1 3 2 (fun _ _ => 0) (by decide),
   h.2 (PyVal.float 0) (PyVal.float 10) (by decide)⟩

/-- C5: when the plugin registry cannot find or load the named backend
(the factory constructor throws), `createSolver` returns the absent value
(`Py_None`) instead of propagating an exception. -/
theorem createSolver_load_failure_absent (reg : PluginRegistry) (name : String)
    (p : ProblemT) (h : reg.loadable name = false) :
    createSolverWrap reg name p = none := by
  unfold createSolverWrap factoryNew
  rw [h]
  rfl

/-- C5 witness: `createSolver("unknown-plugin", problem)` with no loadable
backend yields the absent value. -/
theorem createSolver_load_failure_absent_witness :
    createSolverWrap noPluginRegistry "unknown-plugin" sampleProblem = none :=
  createSolver_load_failure_absent noPluginRegistry "unknown-plugin"
    sampleProblem rfl

/-- C6: rebinding a different callable releases the previously bound
handle and acquires the new one (for each of the three bind operations);
binding the callable that is already bound again leaves the state and the
heap — in particular the handle's reference count — unchanged.  For
`setComputeCallback` this is the explicit early return; for
`setGradientCallback` / `setJacobianCallback` it is the net effect of the
release-then-acquire pair, which requires the handle to be live with at
least one reference besides the slot's (`2 ≤ count`), as is always the
case when called from Python (the argument tuple holds a reference). -/
theorem bind_callbacks_lifecycle (st : BindState) (h : Heap) (cb old : Nat) :
    (st.computeCallback = some cb → setComputeCallbackS st h cb = (st, h)) ∧
    (st.gradientCallback = some cb → 2 ≤ h.count cb →
       setGradientCallbackS st h cb = (st, h)) ∧
    (st.jacobianCallback = some cb → 2 ≤ h.count cb →
       setJacobianCallbackS st h cb = (st, h)) ∧
    (st.computeCallback = some old → old ≠ cb →
       (setComputeCallbackS st h cb).1.computeCallback = some cb ∧
       (setComputeCallbackS st h cb).2.count old = h.count old - 1 ∧
       (setComputeCallbackS st h cb).2.count cb = h.count cb + 1) ∧
    (st.gradientCallback = some old → old ≠ cb →
       (setGradientCallbackS st h cb).1.gradientCallback = some cb ∧
       (setGradientCallbackS st h cb).2.count old = h.count old - 1 ∧
       (setGradientCallbackS st h cb).2.count cb = h.count cb + 1) ∧
    (st.jacobianCallback = some old → old ≠ cb →
       (setJacobianCallbackS st h cb).1.jacobianCallback = some cb ∧
       (setJacobianCallbackS st h cb).2.count old = h.count old - 1 ∧
       (setJacobianCallbackS st h cb).2.count cb = h.count cb + 1) := by
  have hheapid : 2 ≤ h.count cb → xincrefH (decrefH h cb) cb = h := by
    intro hcnt
    have hgt : ¬ h.count cb ≤ 1 := by omega
    apply Heap.ext
    · funext y
      by_cases hy : y = cb
      · subst hy
        simp [decrefH, xincrefH, hgt]
        try omega
      · simp [decrefH, xincrefH, hgt, hy]
    · funext y
      simp [decrefH, xincrefH, hgt]
  have hrebind : old ≠ cb →
      (xincrefH (decrefH h old) cb).count old = h.count old - 1 ∧
      (xincrefH (decrefH h old) cb).count cb = h.count cb + 1 := by
    intro hne
    have hne' : ¬ old = cb := hne
    have hne'' : ¬ cb = old := fun e => hne e.symm
    constructor
    · by_cases hle : h.count old ≤ 1
      · simp [decrefH, xincrefH, hle, hne']
        try omega
      · simp [decrefH, xincrefH, hle, hne']
    · by_cases hle : h.count old ≤ 1
      · simp [decrefH, xincrefH, hle, hne'']
      · simp [decrefH, xincrefH, hle, hne'']
  refine ⟨?_, ?_, ?_, ?_, ?_, ?_⟩
  · intro hslot
    unfold setComputeCallbackS
    rw [if_pos hslot]
  · intro hslot hcnt
    have heq : setGradientCallbackS st h cb =
        ({ st with gradientCallback := some cb }, xincrefH (decrefH h cb) cb) := by
      unfold setGradientCallbackS
      rw [hslot]
    have hst : { st with gradientCallback := some cb } = st := by
      cases st
      simp_all
    rw [heq, hheapid hcnt, hst]
  · intro hslot hcnt
    have heq : setJacobianCallbackS st h cb =
        ({ st with jacobianCallback := some cb }, xincrefH (decrefH h cb) cb) := by
      unfold setJacobianCallbackS
      rw [hslot]
    have hst : { st with jacobianCallback := some cb } = st := by
      cases st
      simp_all
    rw [heq, hheapid hcnt, hst]
  · intro hslot hne
    have hguard : ¬ st.computeCallback = some cb := by
      rw [hslot]
      simp [hne]
    have heq : setComputeCallbackS st h cb =
        ({ st with computeCallback := some cb }, xincrefH (decrefH h old) cb) := by
      unfold setComputeCallbackS
      rw [if_neg hguard, hslot]
    rw [heq]
    exact ⟨rfl, (hrebind hne).1, (hrebind hne).2⟩
  · intro hslot hne
    have heq : setGradientCallbackS st h cb =
        ({ st with gradientCallback := some cb }, xincrefH (decrefH h old) cb) := by
      unfold setGradientCallbackS
      rw [hslot]
    rw [heq]
    exact ⟨rfl, (hrebind hne).1, (hrebind hne).2⟩
  · intro hslot hne
    have heq : setJacobianCallbackS st h cb =
        ({ st with jacobianCallback := some cb }, xincrefH (decrefH h old) cb) := by
      unfold setJacobianCallbackS
      rw [hslot]
    rw [heq]
    exact ⟨rfl, (hrebind hne).1, (hrebind hne).2⟩

/-- C6 witness: with handle 5 bound in all three slots and reference count
2, rebinding 5 is a no-op for each operation; rebinding 7 in the gradient
slot releases handle 5 and acquires handle 7. -/
theorem bind_callbacks_lifecycle_witness :
    setComputeCallbackS bindStateSample heapSample 5 = (bindStateSample, heapSample) ∧
    setGradientCallbackS bindStateSample heapSample 5 = (bindStateSample, heapSample) ∧
    setJacobianCallbackS bindStateSample heapSample 5 = (bindStateSample, heapSample) ∧
    (setGradientCallbackS bindStateSample heapSample 7).1.gradientCallback = some 7 ∧
    (setGradientCallbackS bindStateSample heapSample 7).2.count 5 =
      heapSample.count 5 - 1 ∧
    (setGradientCallbackS bindStateSample heapSample 7).2.count 7 =
      heapSample.count 7 + 1 :=
  have hsame := bind_callbacks_lifecycle bindStateSample heapSample 5 5
  have hdiff := bind_callbacks_lifecycle bindStateSample heapSample 7 5
  have hrebind := hdiff.2.2.2.2.1 rfl (by decide)
  ⟨hsame.1 rfl,
   hsame.2.1 rfl (by decide),
   hsame.2.2.1 rfl (by decide),
   hrebind.1, hrebind.2.1, hrebind.2.2⟩

/-- C7: an error raised inside a bound foreign callable during compute,
gradient or jacobian evaluation propagates to the caller of the evaluation
operation, enriched with the "Error occurred in Python code:" context, and
is never swallowed or turned into a numeric result (the caller's output
buffer is left as it was). -/
theorem callback_error_propagates (f : PyFunctionObj) (e : String)
    (buf x : List double) (functionId : Int) (jbuf : List (List double)) :
    (∀ cb : PyComputeCb, f.computeCallback = some cb → cb.isFunction = true →
       (cb.run (List.replicate f.outputSize 0) x).1 = some e →
       computeWrap f buf x =
         (some ⟨"RuntimeError", pythonErrorMessage e⟩, buf)) ∧
    (∀ gcb : PyGradientCb, f.level ≠ FuncLevel.plain →
       f.gradientCallback = some gcb → gcb.isFunction = true →
       (gcb.run (List.replicate f.inputSize 0) x functionId).1 = some e →
       gradientWrap f buf x functionId =
         (some ⟨"RuntimeError", pythonErrorMessage e⟩, buf)) ∧
    (∀ jcb : PyJacobianCb, f.level ≠ FuncLevel.plain →
       f.jacobianCallback = some jcb → jcb.isFunction = true →
       (jcb.run (List.replicate f.outputSize (List.replicate f.inputSize 0)) x).1 = some e →
       jacobianWrap f jbuf x =
         (some ⟨"RuntimeError", pythonErrorMessage e⟩, jbuf)) := by
  refine ⟨?_, ?_, ?_⟩
  · intro cb hb hfn hr
    have himpl : functionCall f x =
        ⟨CallStatus.thrown ⟨"RuntimeError", pythonErrorMessage e⟩,
         (cb.run (List.replicate f.outputSize 0) x).2⟩ := by
      unfold functionCall implCompute
      rw [hb]
      simp only [hfn, if_true]
      rcases hrun : cb.run (List.replicate f.outputSize 0) x with ⟨err, b⟩
      rw [hrun] at hr
      simp only at hr
      subst hr
      rfl
    unfold computeWrap
    rw [himpl]
  · intro gcb hlvl hb hfn hr
    have himpl : gradientEval f x functionId =
        ⟨CallStatus.thrown ⟨"RuntimeError", pythonErrorMessage e⟩,
         (gcb.run (List.replicate f.inputSize 0) x functionId).2⟩ := by
      unfold gradientEval implGradient
      rw [hb]
      simp only [hfn, if_true]
      rcases hrun : gcb.run (List.replicate f.inputSize 0) x functionId with ⟨err, b⟩
      rw [hrun] at hr
      simp only at hr
      subst hr
      rfl
    unfold gradientWrap
    rw [if_neg hlvl, himpl]
  · intro jcb hlvl hb hfn hr
    have himpl : jacobianEval f x =
        (CallStatus.thrown ⟨"RuntimeError", pythonErrorMessage e⟩,
         (jcb.run (List.replicate f.outputSize (List.replicate f.inputSize 0)) x).2) := by
      unfold jacobianEval implJacobian
      rw [hb]
      simp only [hfn, if_true]
      rcases hrun : jcb.run (List.replicate f.outputSize (List.replicate f.inputSize 0)) x
        with ⟨err, b⟩
      rw [hrun] at hr
      simp only at hr
      subst hr
      rfl
    unfold jacobianWrap
    rw [if_neg hlvl, himpl]

/-- C7 witness: the raising function's compute, gradient and Jacobian
callables each raise "boom", and each wrapper reports the enriched runtime
error with the caller's buffer intact. -/
theorem callback_error_propagates_witness :
    computeWrap raisingFunction [3] [4] =
      (some ⟨"RuntimeError", pythonErrorMessage "boom"⟩, [3]) ∧
    gradientWrap raisingFunction [3] [4] 0 =
      (some ⟨"RuntimeError", pythonErrorMessage "boom"⟩, [3]) ∧
    jacobianWrap raisingFunction [[3]] [4] =
      (some ⟨"RuntimeError", pythonErrorMessage "boom"⟩, [[3]]) :=
  have h := callback_error_propagates raisingFunction "boom" [3] [4] 0 [[3]]
  ⟨h.1 raisingComputeCb rfl rfl rfl,
   h.2.1 raisingGradientCb (by decide) rfl rfl rfl,
   h.2.2 raisingJacobianCb (by decide) rfl rfl rfl⟩

/-- C8: for a problem whose bounds and scales vectors have the invariant
length (one entry per input variable), setting the starting point, the
argument bounds or the argument scales to any array of the valid size and
reading the same quantity back returns exactly the values that were set. -/
theorem problem_roundtrip_bit_identical (p : ProblemT)
    (hb : p.argumentBounds.length = p.inputSize)
    (hs : p.argumentScales.length = p.inputSize)
    (v : List double) (rows : List (double × double)) (sc : List double)
    (hv : v.length = p.inputSize) (hr : rows.length = p.inputSize)
    (hsc : sc.length = p.inputSize) :
    (setStartingPointWrap p v).1 = none ∧
    getStartingPointWrap (setStartingPointWrap p v).2 = some v ∧
    (setArgumentBoundsWrap p rows).1 = none ∧
    getArgumentBoundsWrap (setArgumentBoundsWrap p rows).2 = rows ∧
    (setArgumentScalesWrap p sc).1 = none ∧
    getArgumentScalesWrap (setArgumentScalesWrap p sc).2 = sc := by
  refine ⟨?_, ?_, ?_, ?_, ?_, ?_⟩
  · unfold setStartingPointWrap
    rw [if_pos hv]
  · unfold setStartingPointWrap getStartingPointWrap
    rw [if_pos hv]
  · unfold setArgumentBoundsWrap
    rw [if_pos hr]
  · unfold setArgumentBoundsWrap getArgumentBoundsWrap
    rw [if_pos hr]
    simp only
    exact writeLoop_range_readback p.argumentBounds rows (0, 0) p.inputSize hb hr
  · unfold setArgumentScalesWrap
    rw [if_pos hsc]
  · unfold setArgumentScalesWrap getArgumentScalesWrap
    rw [if_pos hsc]
    simp only
    exact writeLoop_range_readback p.argumentScales sc 0 p.inputSize hs hsc

/-- C8 witness: the round trip on a concrete two-variable problem with
concrete starting point, bounds and scales. -/
theorem problem_roundtrip_bit_identical_witness :
    getStartingPointWrap (setStartingPointWrap sampleProblem [7, 8]).2 = some [7, 8] ∧
    getArgumentBoundsWrap
      (setArgumentBoundsWrap sampleProblem [(1, 2), (3, 4)]).2 = [(1, 2), (3, 4)] ∧
    getArgumentScalesWrap (setArgumentScalesWrap sampleProblem [5, 6]).2 = [5, 6] :=
  have h := problem_roundtrip_bit_identical sampleProblem rfl rfl
    [7, 8] [(1, 2), (3, 4)] [5, 6] rfl rfl rfl
  ⟨h.2.1, h.2.2.2.1, h.2.2.2.2.2⟩

/-- C9: `setSolverParameters` and `setSolverStateParameters` clear the
previous map before inserting the new entries: whatever the previous map
held, any key not inserted by the new dictionary is absent afterwards. -/
theorem setParameters_clear_no_merge
    (oldP : String → Option (String × ParamValue))
    (oldS : String → Option (String × StateParamValue))
    (dict : List (PyVal × PyVal)) (k : String)
    (hk : k ∉ dictStringKeys dict) :
    setSolverParametersWrap oldP dict k = none ∧
    setSolverStateParametersWrap oldS dict k = none :=
  ⟨processParamDict_not_mem toParameterValue dict k hk (fun _ => none),
   processParamDict_not_mem toStateParameterValue dict k hk (fun _ => none)⟩

/-- C9 witness: a previous map holding key "zz", re-set from a dictionary
that only inserts key "a": "zz" is absent afterwards in both maps. -/
theorem setParameters_clear_no_merge_witness :
    setSolverParametersWrap oldParamsSample paramDictSample "zz" = none ∧
    setSolverStateParametersWrap oldStateParamsSample paramDictSample "zz" = none :=
  setParameters_clear_no_merge oldParamsSample oldStateParamsSample
    paramDictSample "zz" (by decide)

/-- C10: `resultToDict` also accepts a handle tagged `ResultWithWarnings`:
the converter up-casts it to the base `Result`, and the call succeeds with
the base mapping `inputSize, outputSize, x, value, constraints, lambda`
(no type error). -/
theorem resultToDict_accepts_warnings (w : ResultWithWarningsT) :
    resultToDictWrap (ResultCapsule.warnings w) = Except.ok
      [("inputSize", DictVal.int w.inputSize),
       ("outputSize", DictVal.int w.outputSize),
       ("x", DictVal.npvec w.x),
       ("value", DictVal.npvec w.value),
       ("constraints", DictVal.npvec w.constraints),
       ("lambda", DictVal.npvec w.lambda)] :=
  rfl
